import Mathlib

/-!
# Verification of the gbdte Python bridge layer

Shallow embedding of the `extra_boost_py` package (booster.py, bridge.py,
poisson_booster.py, poisson_bridge.py, metrics.py) and, where the claims
concern the Go training library that is not part of the visible sources,
a model of that library built from the specification (§4.5, §4.6).

A numpy array is modelled by its shape together with its flattened data
(rationals standing for IEEE doubles: the claims under study are about
control flow and exact propagation of values, never about rounding).
A raised Python exception is an `Except.error`; a call into the foreign
library is modelled by the *call descriptor* the ctypes layer would pass,
so "raises before any call into the underlying library" is the statement
that the embedded function returns `.error` (a library invocation exists
only inside `.ok`).
-/

namespace GBDTE

/-- A numpy ndarray: its shape and row-major flattened data.
`data` over ℚ stands for the float64 buffer. -/
structure NDArray where
  shape : List Nat
  data : List ℚ
deriving DecidableEq, Repr

/-- The Python exceptions raised by the bridge layer. -/
inductive PyErr where
  | valueError (msg : String)
  | runtimeError (msg : String)
  | typeError (msg : String)
deriving DecidableEq, Repr

/-- `arr.ndim` -/
def NDArray.ndim (a : NDArray) : Nat := a.shape.length

/-- `arr.shape[0]` (row count of a matrix, length of a vector). -/
def NDArray.rows (a : NDArray) : Nat := a.shape.headD 0

/-- `arr.shape[1]` (column count of a matrix). -/
def NDArray.cols (a : NDArray) : Nat := (a.shape.drop 1).headD 0

/-- booster.py `ExtraBooster._ensure_f64` (also `_ensure_i32` in
poisson_booster.py, identical shape logic): dtype conversion is the
identity here, the dimension check raises `ValueError`. -/
def ensure_f64 (array : NDArray) (ndim : Nat) : Except PyErr NDArray :=
  if array.ndim ≠ ndim then
    .error (.valueError "Expected array of given ndim, got other shape.")
  else
    .ok array

/-- Python `str.lower()`: character-wise lowercasing (executable model;
`String.toLower` itself does not reduce in the kernel). -/
def strToLower (s : String) : String := String.mk (s.data.map Char.toLower)

/-- booster.py `_LOSS_KIND_MAP` lookup: "mse" ↦ 0, "logloss" ↦ 1. -/
def lossKindMap (loss : String) : Option Int :=
  if loss = "mse" then some 0
  else if loss = "logloss" then some 1
  else none

/-- booster.py `BoosterParams` (dataclass defaults included). -/
structure BoosterParams where
  n_stages : Int := 200
  reg_lambda : ℚ := 1 / 10000
  max_depth : Int := 6
  learning_rate : ℚ := 3 / 10
  loss : String := "mse"
  threads_num : Int := 1
  unbalanced_loss : ℚ := 0
deriving DecidableEq, Repr

/-- The dict produced by `BoosterParams.to_bridge_dict`. -/
structure BridgeDict where
  n_stages : Int
  reg_lambda : ℚ
  max_depth : Int
  learning_rate : ℚ
  loss_kind : Int
  threads_num : Int
  unbalanced_loss : ℚ
deriving DecidableEq, Repr

/-- booster.py `BoosterParams.to_bridge_dict`: raises `ValueError` on a
loss name missing from `_LOSS_KIND_MAP` (after `.lower()`), otherwise
packs the fields unchanged. -/
def BoosterParams.to_bridge_dict (p : BoosterParams) : Except PyErr BridgeDict :=
  match lossKindMap (strToLower p.loss) with
  | none => .error (.valueError "Unsupported loss.")
  | some kind =>
      .ok { n_stages := p.n_stages
            reg_lambda := p.reg_lambda
            max_depth := p.max_depth
            learning_rate := p.learning_rate
            loss_kind := kind
            threads_num := p.threads_num
            unbalanced_loss := p.unbalanced_loss }

/-- The argument tuple bridge.py `ExtraBoostBridge.train` passes to the
foreign `TrainModel` (data lists stand for the double pointers). -/
structure TrainCall where
  inter_data : List ℚ
  rows : Nat
  inter_cols : Nat
  extra_data : List ℚ
  extra_cols : Nat
  target_data : List ℚ
  n_stages : Int
  reg_lambda : ℚ
  max_depth : Int
  learning_rate : ℚ
  loss_kind : Int
  threads_num : Int
  unbalanced_loss : ℚ
deriving DecidableEq, Repr

/-- bridge.py `ExtraBoostBridge.train`: unpacks shapes and forwards every
parameter of the dict verbatim into the `TrainModel` invocation. -/
def bridgeTrain (features_inter features_extra target : NDArray)
    (params : BridgeDict) : TrainCall :=
  { inter_data := features_inter.data
    rows := features_inter.rows
    inter_cols := features_inter.cols
    extra_data := features_extra.data
    extra_cols := features_extra.cols
    target_data := target.data
    n_stages := params.n_stages
    reg_lambda := params.reg_lambda
    max_depth := params.max_depth
    learning_rate := params.learning_rate
    loss_kind := params.loss_kind
    threads_num := params.threads_num
    unbalanced_loss := params.unbalanced_loss }

/-- bridge.py line 157: `ctypes.c_int(tree_limit or 0)` — `None` and `0`
are both falsy in Python, any other int passes through. -/
def treeLimitOrZero : Option Int → Int
  | none => 0
  | some k => if k = 0 then 0 else k

/-- The argument tuple bridge.py `ExtraBoostBridge.predict` passes to the
foreign `Predict`. -/
structure PredictCall where
  handle : Nat
  inter_data : List ℚ
  rows : Nat
  inter_cols : Nat
  extra_data : List ℚ
  extra_cols : Nat
  tree_limit : Int
deriving DecidableEq, Repr

/-- bridge.py `ExtraBoostBridge.predict`: unpacks shapes and builds the
`Predict` invocation; the tree limit is `tree_limit or 0`. -/
def bridgePredict (handle : Nat) (features_inter features_extra : NDArray)
    (tree_limit : Option Int) : PredictCall :=
  { handle := handle
    inter_data := features_inter.data
    rows := features_inter.rows
    inter_cols := features_inter.cols
    extra_data := features_extra.data
    extra_cols := features_extra.cols
    tree_limit := treeLimitOrZero tree_limit }

/-- The argument pair passed to the foreign `SaveModel` /
`DumpLearningCurves`. -/
structure PathCall where
  handle : Nat
  path : String
deriving DecidableEq, Repr

/-- booster.py `ExtraBooster` instance state: handle, the feature
dimensions remembered from training (or -1 after `load`), closed flag. -/
structure ExtraBooster where
  handle : Nat
  interDim : Int
  extraDim : Int
  closed : Bool
deriving DecidableEq, Repr

/-- booster.py `ExtraBooster.train` (classmethod) up to and including the
construction of the foreign `TrainModel` call: shape validation in source
order, then `params.to_bridge_dict()`, then the bridge call descriptor.
An `.error` result is an exception raised before the library is invoked. -/
def ExtraBooster.trainCall (features_inter features_extra target : NDArray)
    (params : BoosterParams) : Except PyErr TrainCall := do
  let f_inter ← ensure_f64 features_inter 2
  let f_extra ← ensure_f64 features_extra 2
  if f_inter.rows ≠ f_extra.rows then
    throw (.valueError "features_inter and features_extra must share the same number of rows.")
  let f_target ← ensure_f64 target 1
  if f_target.rows ≠ f_inter.rows then
    throw (.valueError "Target length must match number of rows.")
  let d ← params.to_bridge_dict
  pure (bridgeTrain f_inter f_extra f_target d)

/-- booster.py `ExtraBooster.train` result state: the booster built from a
successful bridge call remembers the column counts of the inputs. -/
def ExtraBooster.afterTrain (features_inter features_extra : NDArray)
    (handle : Nat) : ExtraBooster :=
  { handle := handle
    interDim := Int.ofNat features_inter.cols
    extraDim := Int.ofNat features_extra.cols
    closed := false }

/-- booster.py `ExtraBooster.load`: wraps the handle returned by
`bridge.load` with `features_inter_dim=-1, features_extra_dim=-1`. -/
def ExtraBooster.ofLoad (handle : Nat) : ExtraBooster :=
  { handle := handle, interDim := -1, extraDim := -1, closed := false }

/-- booster.py `ExtraBooster.close`: frees only when not yet closed and the
handle is truthy; returns the new state and whether `bridge.free` ran. -/
def ExtraBooster.close (b : ExtraBooster) : ExtraBooster × Bool :=
  if ¬ b.closed ∧ b.handle ≠ 0 then
    ({ b with closed := true }, true)
  else
    (b, false)

/-- booster.py `ExtraBooster.predict` up to and including the construction
of the foreign `Predict` call: closed check, shape validation, row check,
then the bridge call descriptor. -/
def ExtraBooster.predictCall (b : ExtraBooster)
    (features_inter features_extra : NDArray) (tree_limit : Option Int) :
    Except PyErr PredictCall := do
  if b.closed then
    throw (.runtimeError "Booster handle already freed.")
  let f_inter ← ensure_f64 features_inter 2
  let f_extra ← ensure_f64 features_extra 2
  if f_inter.rows ≠ f_extra.rows then
    throw (.valueError "features_inter and features_extra must share the same number of rows.")
  pure (bridgePredict b.handle f_inter f_extra tree_limit)

/-- booster.py `ExtraBooster.save`: closed check, then the `SaveModel`
call descriptor. -/
def ExtraBooster.saveCall (b : ExtraBooster) (path : String) :
    Except PyErr PathCall :=
  if b.closed then
    .error (.runtimeError "Booster handle already freed.")
  else
    .ok { handle := b.handle, path := path }

/-- booster.py `ExtraBooster.dump_learning_curves`: closed check, then the
`DumpLearningCurves` call descriptor. -/
def ExtraBooster.dumpLearningCurvesCall (b : ExtraBooster) (path : String) :
    Except PyErr PathCall :=
  if b.closed then
    .error (.runtimeError "Booster handle already freed.")
  else
    .ok { handle := b.handle, path := path }

/-- Running a predict through an abstract foreign library: the library's
answer is a function of exactly the call descriptor it receives. -/
def runPredict (lib : PredictCall → Except PyErr (List ℚ)) (b : ExtraBooster)
    (features_inter features_extra : NDArray) (tree_limit : Option Int) :
    Except PyErr (List ℚ) := do
  let c ← b.predictCall features_inter features_extra tree_limit
  lib c

/-- Python keyword-argument binding: a call raises `TypeError` when it
passes a keyword the function signature does not accept. -/
def callRaisesTypeError (accepted passedKeywords : List String) : Bool :=
  passedKeywords.any (fun k => ¬ accepted.contains k)

/-- The keyword parameters of booster.py `ExtraBooster.train`
(lines 84–91): exactly these names bind. -/
def extraBoosterTrainKeywords : List String :=
  ["features_inter", "features_extra", "target", "params", "bridge"]

/-- The keywords pipeline.py `run_classical_pipeline` passes to
`ExtraBooster.train` (lines 159–165): `params` and `monitor_datasets`
(the data triple is positional). -/
def pipelineTrainPassedKeywords : List String :=
  ["params", "monitor_datasets"]

/-! ## Poisson legacy layer (poisson_booster.py, poisson_bridge.py) -/

/-- poisson_booster.py `PoissonLegacyParams` (dataclass defaults). -/
structure PoissonLegacyParams where
  n_stages : Int := 10
  reg_lambda : ℚ := 1 / 10000
  max_depth : Int := 6
  learning_rate : ℚ := 3 / 10
  unbalanced_penalty : ℚ := 0
  check_zero : Bool := true
deriving DecidableEq, Repr

/-- The dict produced by `PoissonLegacyParams.to_bridge_dict` — unlike the
classical params, this conversion can never raise. -/
structure PoissonBridgeDict where
  n_stages : Int
  reg_lambda : ℚ
  max_depth : Int
  learning_rate : ℚ
  unbalanced_penalty : ℚ
  check_zero : Bool
deriving DecidableEq, Repr

/-- poisson_booster.py `PoissonLegacyParams.to_bridge_dict`. -/
def PoissonLegacyParams.to_bridge_dict (p : PoissonLegacyParams) : PoissonBridgeDict :=
  { n_stages := p.n_stages
    reg_lambda := p.reg_lambda
    max_depth := p.max_depth
    learning_rate := p.learning_rate
    unbalanced_penalty := p.unbalanced_penalty
    check_zero := p.check_zero }

/-- The argument tuple poisson_bridge.py `PoissonLegacyBridge.train`
passes to the foreign `PoissonTrainModel` (optional pointers are `none`
when the Python side passes `None`). -/
structure PoissonTrainCall where
  bjid_data : List ℚ
  rows : Nat
  freq_data : List ℚ
  inter_data : List ℚ
  inter_cols : Nat
  extra_data : Option (List ℚ)
  extra_cols : Nat
  psi_data : Option (List ℚ)
  n_stages : Int
  max_depth : Int
  learning_rate : ℚ
  reg_lambda : ℚ
  unbalanced_penalty : ℚ
  check_zero_flag : Int
deriving DecidableEq, Repr

/-- poisson_bridge.py `PoissonLegacyBridge.train`: computes `extra_cols`
(0 when `features_extra is None`), re-checks the psi precondition for a
positive extra dimension, then builds the `PoissonTrainModel` call. -/
def poissonBridgeTrain (bjids freqs features_inter : NDArray)
    (features_extra psi : Option NDArray) (params : PoissonBridgeDict) :
    Except PyErr PoissonTrainCall :=
  let extra_cols := match features_extra with
    | none => 0
    | some fe => fe.cols
  if extra_cols > 0 ∧ psi = none then
    .error (.valueError "psi is required when features_extra is provided.")
  else
    .ok { bjid_data := bjids.data
          rows := features_inter.rows
          freq_data := freqs.data
          inter_data := features_inter.data
          inter_cols := features_inter.cols
          extra_data := (features_extra.map NDArray.data)
          extra_cols := extra_cols
          psi_data := (psi.map NDArray.data)
          n_stages := params.n_stages
          max_depth := params.max_depth
          learning_rate := params.learning_rate
          reg_lambda := params.reg_lambda
          unbalanced_penalty := params.unbalanced_penalty
          check_zero_flag := if params.check_zero then 1 else 0 }

/-- poisson_booster.py `PoissonLegacyBooster.train` (classmethod) up to
and including the construction of the foreign call: shape validation in
source order (bjids, freqs, inter, then the optional extra/psi block),
then the bridge call.  When `features_extra` is `None` the user-supplied
`psi` is dropped (`psi_arr` stays `None`). -/
def PoissonLegacyBooster.trainCall (bjids freqs features_inter : NDArray)
    (features_extra psi : Option NDArray) (params : PoissonLegacyParams) :
    Except PyErr PoissonTrainCall := do
  let bjid_arr ← ensure_f64 bjids 1
  let freqs_arr ← ensure_f64 freqs 1
  let f_inter ← ensure_f64 features_inter 2
  if bjid_arr.rows ≠ f_inter.rows then
    throw (.valueError "bjids length must match features_inter rows.")
  if freqs_arr.rows ≠ f_inter.rows then
    throw (.valueError "freqs length must match features_inter rows.")
  let pair ← match features_extra with
    | none => pure ((none : Option NDArray), (none : Option NDArray))
    | some fe => do
        let f_extra ← ensure_f64 fe 2
        if f_extra.rows ≠ f_inter.rows then
          throw (.valueError "features_extra rows must match features_inter rows.")
        match psi with
        | none => throw (.valueError "psi is required when features_extra is provided.")
        | some ps => do
            let psi_arr ← ensure_f64 ps 1
            if psi_arr.rows ≠ f_extra.cols then
              throw (.valueError "psi length must match features_extra columns.")
            pure (some f_extra, some psi_arr)
  poissonBridgeTrain bjid_arr freqs_arr f_inter pair.1 pair.2 params.to_bridge_dict

/-! ## Metrics (metrics.py) -/

/-- Stable insertion of index `i` into an index list already sorted by
value: `i` passes every earlier index with value ≤ its own, so equal
values keep original order — the behaviour of
`np.argsort(values, kind="mergesort")`. -/
def stableInsert (values : List ℚ) (i : Nat) : List Nat → List Nat
  | [] => [i]
  | j :: rest =>
      if values.getD i 0 < values.getD j 0 then i :: j :: rest
      else j :: stableInsert values i rest

/-- metrics.py line 7 `np.argsort(values, kind="mergesort")`: the index
permutation of a stable sort by value. -/
def argsortStable (values : List ℚ) : List Nat :=
  (List.range values.length).foldl (fun acc i => stableInsert values i acc) []

/-- metrics.py `_average_ranks` main loop: walk the sorted order, group
runs of equal values, give every index of a run the 1-based average rank
`0.5*(i+j-1)+1`.  Returns (index, rank) pairs. -/
def assignRanks (values : List ℚ) : Nat → List Nat → List (Nat × ℚ)
  | _, [] => []
  | i, o :: rest =>
      let v := values.getD o 0
      let run := rest.takeWhile (fun p => values.getD p 0 == v)
      let rest2 := rest.dropWhile (fun p => values.getD p 0 == v)
      let j := i + 1 + run.length
      let avg : ℚ := 1 / 2 * ((i : ℚ) + (j : ℚ) - 1) + 1
      ((o :: run).map (fun p => (p, avg))) ++ assignRanks values j rest2
termination_by _ l => l.length
decreasing_by
  simp only [List.length_cons]
  exact Nat.lt_succ_of_le (List.dropWhile_suffix _).sublist.length_le

/-- metrics.py `_average_ranks`, packaged: ranks of every index. -/
def averageRanks (values : List ℚ) : List (Nat × ℚ) :=
  assignRanks values 0 (argsortStable values)

/-- The float returned by metrics.py `roc_auc_score`: either NaN or a
real value (exact rational in the model). -/
inductive AucResult where
  | nan
  | val (x : ℚ)
deriving DecidableEq, Repr

/-- metrics.py `roc_auc_score`: 1-D/equal-length check raising
`ValueError`, degenerate classes returning NaN, otherwise the rank-sum
statistic. -/
def roc_auc_score (y_true y_score : NDArray) : Except PyErr AucResult :=
  if y_true.ndim ≠ 1 ∨ y_score.ndim ≠ 1 ∨ y_true.rows ≠ y_score.rows then
    .error (.valueError "roc_auc_score expects 1D arrays of equal length")
  else
    let n_pos : ℚ := y_true.data.sum
    let n_neg : ℚ := (y_true.rows : ℚ) - n_pos
    if n_pos = 0 ∨ n_neg = 0 then
      .ok .nan
    else
      let ranks := averageRanks y_score.data
      let rank_sum_pos :=
        ((ranks.filter (fun pr => y_true.data.getD pr.1 0 == 1)).map Prod.snd).sum
      .ok (.val ((rank_sum_pos - n_pos * (n_pos + 1) / 2) / (n_pos * n_neg)))

/-! ## Model of the foreign training library

The Go shared library loaded by bridge.py (TrainModel, Predict, SaveModel,
LoadModel) is not among the visible sources; only its ctypes declarations
and callers are.  The structures below model it from the specification:
the ensemble data model of §3, the prediction rule of §4.5, and the
persistence format of §4.6. -/

/-- Modelled from the spec: §3 `TreeNode` of the foreign library (absent
from the visible sources) — either `Internal{feature_index, threshold,
left, right}` or `Leaf{β}` with a coefficient vector. -/
inductive TreeNode where
  | leaf (beta : List ℚ)
  | internal (featureIndex : Nat) (threshold : ℚ) (left right : TreeNode)
deriving DecidableEq, Repr

/-- Modelled from the spec: §3 `Ensemble` of the foreign library (absent
from the visible sources) — ordered trees, learning rate η, loss kind,
base prediction μ₀, inter/extra dims, bucketiser thresholds. -/
structure Ensemble where
  lossKind : Nat
  learningRate : ℚ
  interDim : Nat
  extraDim : Nat
  basePrediction : ℚ
  thresholds : List (List ℚ)
  trees : List TreeNode
deriving DecidableEq, Repr

/-- Modelled from the spec: §3 bucket invariant of the foreign library's
routing — a row goes left at `Internal(j, τ)` iff `X[i,j] ≤ τ`; the
reached leaf's β is the tree's coefficient for that row. -/
def TreeNode.leafCoeff : TreeNode → List ℚ → List ℚ
  | .leaf beta, _ => beta
  | .internal j tau l r, x =>
      if x.getD j 0 ≤ tau then l.leafCoeff x else r.leafCoeff x

/-- Inner product of two equally long rational vectors. -/
def dot (a b : List ℚ) : ℚ := ((a.zip b).map (fun p => p.1 * p.2)).sum

/-- Modelled from the spec: §3 ordering invariant of the foreign
library's `tree_limit` — trees `[0,k)` are used, `k = 0` means all. -/
def Ensemble.usedTrees (e : Ensemble) (k : Nat) : List TreeNode :=
  if k = 0 then e.trees else e.trees.take k

/-- Modelled from the spec: §4.5 prediction of the foreign library — the
raw additive output `μ₀ + Σ_t η · z_iᵀ β_{leaf(t,i)}` over the used
trees. -/
def Ensemble.predictRow (e : Ensemble) (k : Nat) (x z : List ℚ) : ℚ :=
  e.basePrediction +
    ((e.usedTrees k).map (fun t => e.learningRate * dot z (t.leafCoeff x))).sum

/-- Modelled from the spec: §6 Predict of the foreign library on a
row-paired inter/extra matrix. -/
def Ensemble.predictMatrix (e : Ensemble) (k : Nat) (x z : List (List ℚ)) :
    List ℚ :=
  (x.zip z).map (fun p => e.predictRow k p.1 p.2)

/-- A token of the model file: §4.6's binary fields, abstracted. -/
inductive Tok where
  | nat (n : Nat)
  | rat (q : ℚ)
  | str (s : String)
deriving DecidableEq, Repr

/-- Length-prefixed vector of reals in the model file. -/
def encodeRats (xs : List ℚ) : List Tok := Tok.nat xs.length :: xs.map Tok.rat

/-- Read exactly `n` reals, threading the unread tail. -/
def decodeRats : Nat → List Tok → Option (List ℚ × List Tok)
  | 0, toks => some ([], toks)
  | n + 1, Tok.rat q :: rest => (decodeRats n rest).map (fun p => (q :: p.1, p.2))
  | _ + 1, _ => none

/-- Read one length-prefixed vector of reals. -/
def decodeRatList : List Tok → Option (List ℚ × List Tok)
  | Tok.nat n :: rest => decodeRats n rest
  | _ => none

/-- Count-prefixed list of real vectors (the per-feature thresholds). -/
def encodeRatLists (xss : List (List ℚ)) : List Tok :=
  Tok.nat xss.length :: (xss.map encodeRats).flatten

/-- Read exactly `n` length-prefixed real vectors. -/
def decodeRatLists : Nat → List Tok → Option (List (List ℚ) × List Tok)
  | 0, toks => some ([], toks)
  | n + 1, toks => do
      let (xs, r1) ← decodeRatList toks
      let (xss, r2) ← decodeRatLists n r1
      pure (xs :: xss, r2)

/-- Modelled from the spec: §4.6 pre-order node serialisation of the
foreign library — tag (`0` leaf, `1` internal), then payload. -/
def encodeTree : TreeNode → List Tok
  | .leaf beta => Tok.nat 0 :: encodeRats beta
  | .internal j tau l r =>
      Tok.nat 1 :: Tok.nat j :: Tok.rat tau :: (encodeTree l ++ encodeTree r)

/-- Modelled from the spec: §4.6 pre-order node parser of the foreign
library.  `fuel` bounds the recursion depth; any fuel at least the height
of the encoded tree parses it back. -/
def decodeTree : Nat → List Tok → Option (TreeNode × List Tok)
  | _, Tok.nat 0 :: rest =>
      (decodeRatList rest).map (fun p => (TreeNode.leaf p.1, p.2))
  | fuel + 1, Tok.nat 1 :: Tok.nat j :: Tok.rat tau :: rest => do
      let (l, r1) ← decodeTree fuel rest
      let (r, r2) ← decodeTree fuel r1
      pure (TreeNode.internal j tau l r, r2)
  | _, _ => none

/-- Read exactly `n` pre-order trees. -/
def decodeTrees (fuel : Nat) : Nat → List Tok → Option (List TreeNode × List Tok)
  | 0, toks => some ([], toks)
  | n + 1, toks => do
      let (t, r1) ← decodeTree fuel toks
      let (ts, r2) ← decodeTrees fuel n r1
      pure (t :: ts, r2)

/-- Height of a tree node (leaves have height 0). -/
def TreeNode.height : TreeNode → Nat
  | .leaf _ => 0
  | .internal _ _ l r => max l.height r.height + 1

/-- Modelled from the spec: §4.6 magic header of the model file. -/
def modelMagic : String := "GBDTE-MODEL"

/-- Modelled from the spec: §4.6 format version of the model file. -/
def modelFormatVersion : Nat := 1

/-- Modelled from the spec: §4.6 `SaveModel` of the foreign library —
magic, version, loss kind, η, inter dim, extra dim, μ₀, the per-feature
thresholds, then the ensemble as a count followed by pre-order trees. -/
def Ensemble.save (m : Ensemble) : List Tok :=
  Tok.str modelMagic :: Tok.nat modelFormatVersion :: Tok.nat m.lossKind ::
  Tok.rat m.learningRate :: Tok.nat m.interDim :: Tok.nat m.extraDim ::
  Tok.rat m.basePrediction ::
  (encodeRatLists m.thresholds ++
    Tok.nat m.trees.length :: (m.trees.map encodeTree).flatten)

/-- Modelled from the spec: §4.6 `LoadModel` of the foreign library —
validates magic and version, reads the metadata, thresholds and trees; a
self-contained file leaves no trailing tokens. -/
def loadModel (file : List Tok) : Option Ensemble :=
  match file with
  | Tok.str magic :: Tok.nat version :: Tok.nat lossKind :: Tok.rat lr ::
    Tok.nat interDim :: Tok.nat extraDim :: Tok.rat mu ::
    Tok.nat thrCount :: rest =>
      if magic = modelMagic ∧ version = modelFormatVersion then do
        let (thr, r1) ← decodeRatLists thrCount rest
        match r1 with
        | Tok.nat treeCount :: r2 => do
            let (trees, r3) ← decodeTrees r2.length treeCount r2
            if r3 = [] then
              pure { lossKind := lossKind, learningRate := lr,
                     interDim := interDim, extraDim := extraDim,
                     basePrediction := mu, thresholds := thr, trees := trees }
            else
              none
        | _ => none
      else
        none
  | _ => none

/-- Decidable equality of `Except` results, so concrete runs of the
embedded operations can be checked by `decide`. -/
instance {ε α : Type} [DecidableEq ε] [DecidableEq α] : DecidableEq (Except ε α) := fun a b =>
  match a, b with
  | .error e, .error f =>
      if h : e = f then isTrue (by rw [h])
      else isFalse (by intro hh; cases hh; exact h rfl)
  | .ok x, .ok y =>
      if h : x = y then isTrue (by rw [h])
      else isFalse (by intro hh; cases hh; exact h rfl)
  | .error _, .ok _ => isFalse (by intro h; cases h)
  | .ok _, .error _ => isFalse (by intro h; cases h)

/-! ## Concrete instances used to instantiate the theorems -/

/-- A 1×2 matrix. -/
def mat12 : NDArray := { shape := [1, 2], data := [5, 7] }

/-- A 1×3 matrix. -/
def mat13 : NDArray := { shape := [1, 3], data := [1, 2, 3] }

/-- A 2×2 matrix. -/
def mat22 : NDArray := { shape := [2, 2], data := [1, 2, 3, 4] }

/-- A length-1 vector. -/
def vecOne : NDArray := { shape := [1], data := [1] }

/-- A length-2 vector. -/
def vecTwo : NDArray := { shape := [2], data := [0, 1] }

/-- A booster as produced by training on 2 inter and 2 extra columns. -/
def boosterQ2 : ExtraBooster := { handle := 7, interDim := 2, extraDim := 2, closed := false }

/-- Parameters violating every bound of the BadParameter table at once
(n_stages ≤ 0, learning_rate ∉ (0,1], max_depth < 1) with a known loss. -/
def badBoundsParams : BoosterParams :=
  { n_stages := 0, learning_rate := 2, max_depth := 0, loss := "mse" }

/-- A small tree: one split, two coefficient leaves. -/
def demoTree : TreeNode :=
  TreeNode.internal 0 (1 / 2) (TreeNode.leaf [1, 2]) (TreeNode.leaf [3, 4])

/-- A small ensemble exercising every persisted field. -/
def demoEnsemble : Ensemble :=
  { lossKind := 0, learningRate := 3 / 10, interDim := 1, extraDim := 2,
    basePrediction := 1 / 4, thresholds := [[1 / 2], []],
    trees := [demoTree, TreeNode.leaf [0, 1]] }

/-- Two inter rows for the round-trip check. -/
def demoX : List (List ℚ) := [[0], [1]]

/-- Two extra rows for the round-trip check. -/
def demoZ : List (List ℚ) := [[1, 0], [1, 1]]

/-- All-negative label vector (no positive labels). -/
def allZeroLabels : NDArray := { shape := [2], data := [0, 0] }

/-- A score vector for the degenerate AUC check. -/
def someScores : NDArray := { shape := [2], data := [3, 4] }

/-- A 2-D array (wrong ndim for `roc_auc_score`). -/
def notOneD : NDArray := { shape := [2, 2], data := [1, 2, 3, 4] }

/-! # Theorems -/

/-- C8: `ExtraBooster.load` wraps any handle with inter-feature dimension
-1 and extra-feature dimension -1, whatever the saved model's dimensions
were. -/
theorem C8_load_loses_dimensions (handle : Nat) :
    (ExtraBooster.ofLoad handle).interDim = -1 ∧
    (ExtraBooster.ofLoad handle).extraDim = -1 :=
  ⟨rfl, rfl⟩

/-- C2 (code bug evaluated): `run_classical_pipeline` passes the keyword
`monitor_datasets` to `ExtraBooster.train`, whose signature does not
accept it, so the call raises `TypeError` instead of completing —
contradicting both the spec's train interface and the pipeline's own
expectation. -/
theorem C2_monitor_datasets_type_error :
    extraBoosterTrainKeywords.contains "monitor_datasets" = false ∧
    pipelineTrainPassedKeywords.contains "monitor_datasets" = true ∧
    callRaisesTypeError extraBoosterTrainKeywords pipelineTrainPassedKeywords = true := by
  decide

/-- C4 counterexample: a booster trained with extra dimension 2 accepts a
predict call whose extra matrix has 3 columns — the Python layer returns
the library call descriptor (no exception before the library runs),
refuting "raises an error before any prediction work is done". -/
theorem C4_counterexample_no_q_check :
    Int.ofNat mat13.cols ≠ boosterQ2.extraDim ∧
    boosterQ2.predictCall mat12 mat13 none =
      Except.ok { handle := 7, inter_data := [5, 7], rows := 1, inter_cols := 2,
                  extra_data := [1, 2, 3], extra_cols := 3, tree_limit := 0 } := by
  exact ⟨by decide, rfl⟩

/-- C5 counterexample: a train call with n_stages = 0, learning_rate = 2
and max_depth = 0 (all outside the BadParameter bounds) but a known loss
reaches the library: the Python layer returns the `TrainModel` call
descriptor instead of raising. -/
theorem C5_counterexample_params_not_checked :
    badBoundsParams.n_stages ≤ 0 ∧
    ¬ (0 < badBoundsParams.learning_rate ∧ badBoundsParams.learning_rate ≤ 1) ∧
    badBoundsParams.max_depth < 1 ∧
    ExtraBooster.trainCall mat12 mat12 vecOne badBoundsParams =
      Except.ok { inter_data := [5, 7], rows := 1, inter_cols := 2,
                  extra_data := [5, 7], extra_cols := 2, target_data := [1],
                  n_stages := 0, reg_lambda := 1 / 10000, max_depth := 0,
                  learning_rate := 2, loss_kind := 0, threads_num := 1,
                  unbalanced_loss := 0 } := by
  refine ⟨by decide, by decide, by decide, ?_⟩
  rfl

/-- C3: when the row counts of the inter matrix, extra matrix and target
disagree, `ExtraBooster.train` raises before the library is invoked, and
when the inter/extra row counts disagree `ExtraBooster.predict` raises
before the library is invoked (the result is an exception, not a call
descriptor, so no training or prediction work is reached). -/
theorem C3_shape_mismatch_fails_fast
    (inter extra target : NDArray) (params : BoosterParams)
    (b : ExtraBooster) (pInter pExtra : NDArray) (tl : Option Int)
    (ri ci re ce rt r1 c1 r2 c2 : Nat)
    (hi : inter.shape = [ri, ci]) (he : extra.shape = [re, ce])
    (ht : target.shape = [rt])
    (hmis : ¬ (ri = re ∧ rt = ri))
    (hpi : pInter.shape = [r1, c1]) (hpe : pExtra.shape = [r2, c2])
    (hpmis : r1 ≠ r2) :
    (∃ e, ExtraBooster.trainCall inter extra target params = .error e) ∧
    (∃ e, b.predictCall pInter pExtra tl = .error e) := by
  constructor
  · by_cases hre : ri = re
    · have hrt : rt ≠ ri := fun hh => hmis ⟨hre, hh⟩
      subst hre
      refine ⟨.valueError "Target length must match number of rows.", ?_⟩
      simp [ExtraBooster.trainCall, ensure_f64, NDArray.ndim, NDArray.rows, hi, he, ht,
        hrt, throw, throwThe, MonadExceptOf.throw, Bind.bind, Except.bind, pure, Except.pure]
    · refine ⟨.valueError
        "features_inter and features_extra must share the same number of rows.", ?_⟩
      simp [ExtraBooster.trainCall, ensure_f64, NDArray.ndim, NDArray.rows, hi, he, ht,
        hre, throw, throwThe, MonadExceptOf.throw, Bind.bind, Except.bind, pure, Except.pure]
  · by_cases hc : b.closed
    · refine ⟨.runtimeError "Booster handle already freed.", ?_⟩
      simp [ExtraBooster.predictCall, hc,
        throw, throwThe, MonadExceptOf.throw, Bind.bind, Except.bind, pure, Except.pure]
    · refine ⟨.valueError
        "features_inter and features_extra must share the same number of rows.", ?_⟩
      simp [ExtraBooster.predictCall, ensure_f64, NDArray.ndim, NDArray.rows, hpi, hpe,
        hpmis, hc, throw, throwThe, MonadExceptOf.throw, Bind.bind, Except.bind, pure,
        Except.pure]

/-- Witness for C3 at concrete mismatching inputs. -/
theorem C3_shape_mismatch_fails_fast_witness :
    (∃ e, ExtraBooster.trainCall mat12 mat22 vecOne { } = .error e) ∧
    (∃ e, boosterQ2.predictCall mat12 mat22 none = .error e) :=
  C3_shape_mismatch_fails_fast mat12 mat22 vecOne { } boosterQ2 mat12 mat22 none
    1 2 2 2 1 1 2 2 2 rfl rfl rfl (by decide) rfl rfl (by decide)

/-- C4 amended: the Python layer never compares the predict-time extra
column count with the trained extra dimension; with agreeing row counts
the call succeeds and forwards the (mismatched) column count verbatim to
the library, which is where any q-mismatch is detected after the call. -/
theorem C4_amended_q_mismatch_forwarded (b : ExtraBooster)
    (inter extra : NDArray) (tl : Option Int) (r ci ce : Nat)
    (hb : b.closed = false)
    (hi : inter.shape = [r, ci]) (he : extra.shape = [r, ce])
    (hq : Int.ofNat ce ≠ b.extraDim) :
    b.predictCall inter extra tl = .ok (bridgePredict b.handle inter extra tl) := by
  simp [ExtraBooster.predictCall, ensure_f64, NDArray.ndim, NDArray.rows, hi, he, hb,
    throw, throwThe, MonadExceptOf.throw, Bind.bind, Except.bind, pure, Except.pure]

/-- Witness for the amended C4 at the counterexample's input. -/
theorem C4_amended_q_mismatch_forwarded_witness :
    boosterQ2.predictCall mat12 mat13 none =
      .ok (bridgePredict boosterQ2.handle mat12 mat13 none) :=
  C4_amended_q_mismatch_forwarded boosterQ2 mat12 mat13 none 1 2 3
    rfl rfl rfl (by decide)

/-- C5 amended: with well-formed shapes the Python layer raises before
the library call exactly when the loss name is unknown (after
lowercasing); n_stages, learning_rate and max_depth are forwarded to the
library unvalidated, whatever their values. -/
theorem C5_amended_only_loss_checked (inter extra target : NDArray)
    (p : BoosterParams) (r ci ce : Nat)
    (hi : inter.shape = [r, ci]) (he : extra.shape = [r, ce])
    (ht : target.shape = [r]) :
    (lossKindMap (strToLower p.loss) = none →
      ExtraBooster.trainCall inter extra target p =
        .error (.valueError "Unsupported loss.")) ∧
    (∀ kind, lossKindMap (strToLower p.loss) = some kind →
      ExtraBooster.trainCall inter extra target p =
        .ok { inter_data := inter.data, rows := r, inter_cols := ci,
              extra_data := extra.data, extra_cols := ce,
              target_data := target.data, n_stages := p.n_stages,
              reg_lambda := p.reg_lambda, max_depth := p.max_depth,
              learning_rate := p.learning_rate, loss_kind := kind,
              threads_num := p.threads_num,
              unbalanced_loss := p.unbalanced_loss }) := by
  constructor
  · intro hnone
    simp [ExtraBooster.trainCall, ensure_f64, NDArray.ndim, NDArray.rows, hi, he, ht,
      BoosterParams.to_bridge_dict, hnone,
      throw, throwThe, MonadExceptOf.throw, Bind.bind, Except.bind, pure, Except.pure]
  · intro kind hkind
    simp [ExtraBooster.trainCall, ensure_f64, NDArray.ndim, NDArray.rows, NDArray.cols,
      hi, he, ht, BoosterParams.to_bridge_dict, hkind, bridgeTrain,
      throw, throwThe, MonadExceptOf.throw, Bind.bind, Except.bind, pure, Except.pure]

/-- Witness for the amended C5: the out-of-bounds parameters of the
counterexample pass straight through; an unknown loss raises. -/
theorem C5_amended_only_loss_checked_witness :
    (ExtraBooster.trainCall mat12 mat12 vecOne badBoundsParams =
      .ok { inter_data := mat12.data, rows := 1, inter_cols := 2,
            extra_data := mat12.data, extra_cols := 2,
            target_data := vecOne.data, n_stages := badBoundsParams.n_stages,
            reg_lambda := badBoundsParams.reg_lambda,
            max_depth := badBoundsParams.max_depth,
            learning_rate := badBoundsParams.learning_rate, loss_kind := 0,
            threads_num := badBoundsParams.threads_num,
            unbalanced_loss := badBoundsParams.unbalanced_loss }) ∧
    (ExtraBooster.trainCall mat12 mat12 vecOne { loss := "huber" } =
      .error (.valueError "Unsupported loss.")) :=
  ⟨(C5_amended_only_loss_checked mat12 mat12 vecOne badBoundsParams 1 2 2
      rfl rfl rfl).2 0 (by decide),
   (C5_amended_only_loss_checked mat12 mat12 vecOne { loss := "huber" } 1 2 2
      rfl rfl rfl).1 (by decide)⟩

/-- C6: once `close()` has run on a booster with a live handle, predict,
save and dump_learning_curves all raise `RuntimeError` without reaching
the library, and a second `close()` does not call `free` again. -/
theorem C6_closed_handle_fails_fast (b : ExtraBooster) (hb : b.handle ≠ 0)
    (inter extra : NDArray) (tl : Option Int) (p1 p2 : String) :
    ((b.close.1).predictCall inter extra tl =
        .error (.runtimeError "Booster handle already freed.")) ∧
    ((b.close.1).saveCall p1 =
        .error (.runtimeError "Booster handle already freed.")) ∧
    ((b.close.1).dumpLearningCurvesCall p2 =
        .error (.runtimeError "Booster handle already freed.")) ∧
    ((b.close.1).close.2 = false) := by
  have hcl : (b.close.1).closed = true := by
    unfold ExtraBooster.close
    by_cases h : b.closed
    · simp [h]
    · simp [h, hb]
  refine ⟨?_, ?_, ?_, ?_⟩
  · simp [ExtraBooster.predictCall, hcl,
      throw, throwThe, MonadExceptOf.throw, Bind.bind, Except.bind, pure, Except.pure]
  · simp [ExtraBooster.saveCall, hcl]
  · simp [ExtraBooster.dumpLearningCurvesCall, hcl]
  · by_cases h : b.closed
    · simp [ExtraBooster.close, h]
    · simp [ExtraBooster.close, h, hb]

/-- Witness for C6 at a concrete booster. -/
theorem C6_closed_handle_fails_fast_witness :
    ((boosterQ2.close.1).predictCall mat12 mat12 none =
        .error (.runtimeError "Booster handle already freed.")) ∧
    ((boosterQ2.close.1).saveCall "model.bin" =
        .error (.runtimeError "Booster handle already freed.")) ∧
    ((boosterQ2.close.1).dumpLearningCurvesCall "curves.json" =
        .error (.runtimeError "Booster handle already freed.")) ∧
    ((boosterQ2.close.1).close.2 = false) :=
  C6_closed_handle_fails_fast boosterQ2 (by decide) mat12 mat12 none
    "model.bin" "curves.json"

/-- C7: predict with `tree_limit` omitted and with `tree_limit = 0` build
identical library invocations (hence the same result for any library
behaviour), both meaning "all trees"; a positive limit `k` is forwarded
unchanged as the trees-[0,k) bound. -/
theorem C7_tree_limit_semantics (b : ExtraBooster) (inter extra : NDArray)
    (k : Int) (r ci ce : Nat)
    (hb : b.closed = false) (hi : inter.shape = [r, ci])
    (he : extra.shape = [r, ce]) (hk : 0 < k) :
    b.predictCall inter extra none = b.predictCall inter extra (some 0) ∧
    (∀ lib, runPredict lib b inter extra none =
        runPredict lib b inter extra (some 0)) ∧
    b.predictCall inter extra (some k) =
      .ok { handle := b.handle, inter_data := inter.data, rows := r,
            inter_cols := ci, extra_data := extra.data, extra_cols := ce,
            tree_limit := k } := by
  have hzero : treeLimitOrZero none = treeLimitOrZero (some 0) := by
    simp [treeLimitOrZero]
  have hcall : b.predictCall inter extra none = b.predictCall inter extra (some 0) := by
    simp [ExtraBooster.predictCall, bridgePredict, hzero]
  refine ⟨hcall, fun lib => by simp [runPredict, hcall], ?_⟩
  have hknz : k ≠ 0 := ne_of_gt hk
  simp [ExtraBooster.predictCall, ensure_f64, NDArray.ndim, NDArray.rows, NDArray.cols,
    hi, he, hb, bridgePredict, treeLimitOrZero, hknz,
    throw, throwThe, MonadExceptOf.throw, Bind.bind, Except.bind, pure, Except.pure]

/-- Witness for C7 at a concrete booster and input. -/
theorem C7_tree_limit_semantics_witness :
    boosterQ2.predictCall mat12 mat12 none =
        boosterQ2.predictCall mat12 mat12 (some 0) ∧
    (∀ lib, runPredict lib boosterQ2 mat12 mat12 none =
        runPredict lib boosterQ2 mat12 mat12 (some 0)) ∧
    boosterQ2.predictCall mat12 mat12 (some 3) =
      .ok { handle := boosterQ2.handle, inter_data := mat12.data, rows := 1,
            inter_cols := 2, extra_data := mat12.data, extra_cols := 2,
            tree_limit := 3 } :=
  C7_tree_limit_semantics boosterQ2 mat12 mat12 3 1 2 2 rfl rfl rfl (by decide)

/-- C9: with well-formed grouped targets, when `features_extra` is given
`PoissonLegacyBooster.train` raises `ValueError` before any library call
exactly when `psi` is absent or its length differs from the extra column
count; without `features_extra` no psi is required and the library call
is built. -/
theorem C9_poisson_psi_precondition (bjids freqs inter extra : NDArray)
    (psi : Option NDArray) (params : PoissonLegacyParams) (n p q : Nat)
    (hb : bjids.shape = [n]) (hf : freqs.shape = [n])
    (hi : inter.shape = [n, p]) (he : extra.shape = [n, q])
    (hpsi : ∀ ps, psi = some ps → ∃ l, ps.shape = [l]) :
    ((∃ e, PoissonLegacyBooster.trainCall bjids freqs inter (some extra) psi
        params = .error e) ↔
      (psi = none ∨ ∃ ps l, psi = some ps ∧ ps.shape = [l] ∧ l ≠ q)) ∧
    (∀ psi2, ∃ c, PoissonLegacyBooster.trainCall bjids freqs inter none psi2
        params = .ok c) := by
  constructor
  · rcases psi with _ | ps
    · constructor
      · intro _
        exact Or.inl rfl
      · intro _
        refine ⟨.valueError "psi is required when features_extra is provided.", ?_⟩
        simp [PoissonLegacyBooster.trainCall, ensure_f64, NDArray.ndim, NDArray.rows,
          hb, hf, hi, he, throw, throwThe, MonadExceptOf.throw, Bind.bind, Except.bind,
          pure, Except.pure]
    · obtain ⟨l, hl⟩ := hpsi ps rfl
      by_cases hlq : l = q
      · subst hlq
        constructor
        · rintro ⟨e, hrun⟩
          exfalso
          revert hrun
          simp [PoissonLegacyBooster.trainCall, ensure_f64, NDArray.ndim, NDArray.rows,
            NDArray.cols, hb, hf, hi, he, hl, poissonBridgeTrain,
            throw, throwThe, MonadExceptOf.throw, Bind.bind, Except.bind,
            pure, Except.pure]
        · rintro (h | ⟨ps2, l2, hps2, hl2, hlq2⟩)
          · cases h
          · cases hps2
            rw [hl] at hl2
            cases hl2
            exact absurd rfl hlq2
      · constructor
        · intro _
          exact Or.inr ⟨ps, l, rfl, hl, hlq⟩
        · intro _
          refine ⟨.valueError "psi length must match features_extra columns.", ?_⟩
          simp [PoissonLegacyBooster.trainCall, ensure_f64, NDArray.ndim, NDArray.rows,
            NDArray.cols, hb, hf, hi, he, hl, hlq,
            throw, throwThe, MonadExceptOf.throw, Bind.bind, Except.bind,
            pure, Except.pure]
  · intro psi2
    simp [PoissonLegacyBooster.trainCall, ensure_f64, NDArray.ndim, NDArray.rows,
      NDArray.cols, hb, hf, hi, poissonBridgeTrain,
      throw, throwThe, MonadExceptOf.throw, Bind.bind, Except.bind, pure, Except.pure]

/-- Witness for C9: psi absent with extra present raises; extra absent
needs no psi. -/
theorem C9_poisson_psi_precondition_witness :
    ((∃ e, PoissonLegacyBooster.trainCall vecTwo vecTwo mat22 (some mat22)
        none { } = .error e) ↔
      ((none : Option NDArray) = none ∨
        ∃ ps l, (none : Option NDArray) = some ps ∧ ps.shape = [l] ∧ l ≠ 2)) ∧
    (∀ psi2, ∃ c, PoissonLegacyBooster.trainCall vecTwo vecTwo mat22 none psi2
        { } = .ok c) :=
  C9_poisson_psi_precondition vecTwo vecTwo mat22 mat22 none { } 2 2 2
    rfl rfl rfl rfl (fun ps hps => by cases hps)

/-- C10: `roc_auc_score` returns NaN (instead of raising) whenever the
label vector has no positive or no negative labels, and raises
`ValueError` exactly when the two arrays are not both 1-D of the same
length. -/
theorem C10_roc_auc_degenerate_nan (y_true y_score a b : NDArray) (n : Nat)
    (hyt : y_true.shape = [n]) (hys : y_score.shape = [n])
    (hlen : y_true.data.length = n)
    (hdeg : (∀ x ∈ y_true.data, x = 0) ∨ (∀ x ∈ y_true.data, x = 1)) :
    roc_auc_score y_true y_score = .ok AucResult.nan ∧
    ((∃ e, roc_auc_score a b = .error e) ↔
      ¬ (a.ndim = 1 ∧ b.ndim = 1 ∧ a.rows = b.rows)) := by
  constructor
  · rcases hdeg with h | h
    · have hsum : y_true.data.sum = 0 := List.sum_eq_zero h
      simp [roc_auc_score, NDArray.ndim, NDArray.rows, hyt, hys, hsum]
    · have hsum : y_true.data.sum = (n : ℚ) := by
        have h2 := List.sum_eq_card_nsmul y_true.data (1 : ℚ) h
        rw [h2, hlen]
        simp
      by_cases hn : (n : ℚ) = 0
      · simp [roc_auc_score, NDArray.ndim, NDArray.rows, hyt, hys, hsum, hn]
      · simp [roc_auc_score, NDArray.ndim, NDArray.rows, hyt, hys, hsum, hn]
  · constructor
    · rintro ⟨e, he⟩ ⟨h1, h2, h3⟩
      rw [roc_auc_score, if_neg (by simp [h1, h2, h3])] at he
      dsimp only at he
      split at he <;> exact Except.noConfusion he
    · intro hcond
      refine ⟨.valueError "roc_auc_score expects 1D arrays of equal length", ?_⟩
      rw [roc_auc_score, if_pos (by tauto)]

/-- Witness for C10: an all-negative label vector yields NaN; a 2-D first
argument raises. -/
theorem C10_roc_auc_degenerate_nan_witness :
    roc_auc_score allZeroLabels someScores = .ok AucResult.nan ∧
    ((∃ e, roc_auc_score notOneD vecTwo = .error e) ↔
      ¬ (notOneD.ndim = 1 ∧ vecTwo.ndim = 1 ∧ notOneD.rows = vecTwo.rows)) :=
  C10_roc_auc_degenerate_nan allZeroLabels someScores notOneD vecTwo 2
    rfl rfl rfl (Or.inl (by decide))

/-! ## Round-trip of the modelled persistence format (§4.6) -/

/-- Reading back an encoded vector returns it and the untouched tail. -/
theorem decodeRats_append (xs : List ℚ) (rest : List Tok) :
    decodeRats xs.length (xs.map Tok.rat ++ rest) = some (xs, rest) := by
  induction xs generalizing rest with
  | nil => simp [decodeRats]
  | cons x xs ih => simp [decodeRats, ih]

/-- Reading back a length-prefixed vector returns it. -/
theorem decodeRatList_encode (xs : List ℚ) (rest : List Tok) :
    decodeRatList (encodeRats xs ++ rest) = some (xs, rest) := by
  simp [encodeRats, decodeRatList, decodeRats_append]

/-- Reading back an encoded threshold table returns it. -/
theorem decodeRatLists_encode (xss : List (List ℚ)) (rest : List Tok) :
    decodeRatLists xss.length ((xss.map encodeRats).flatten ++ rest) =
      some (xss, rest) := by
  induction xss generalizing rest with
  | nil => simp [decodeRatLists]
  | cons xs xss ih =>
      simp [decodeRatLists, List.append_assoc, decodeRatList_encode, ih,
        Bind.bind, Option.bind]

/-- Any fuel at least the tree's height parses its pre-order encoding
back, leaving the tail untouched. -/
theorem decodeTree_encode (t : TreeNode) :
    ∀ (fuel : Nat) (rest : List Tok), t.height ≤ fuel →
      decodeTree fuel (encodeTree t ++ rest) = some (t, rest) := by
  induction t with
  | leaf beta =>
      intro fuel rest _
      simp [encodeTree, decodeTree, decodeRatList_encode, List.append_assoc]
  | internal j tau l r ihl ihr =>
      intro fuel rest h
      cases fuel with
      | zero => exact absurd h (by simp [TreeNode.height])
      | succ f =>
          have hm : max l.height r.height ≤ f := Nat.succ_le_succ_iff.mp h
          have hl : l.height ≤ f := le_trans (le_max_left _ _) hm
          have hr : r.height ≤ f := le_trans (le_max_right _ _) hm
          simp [encodeTree, decodeTree, List.append_assoc, ihl f _ hl, ihr f _ hr,
            Bind.bind, Option.bind]

/-- Reading back an encoded tree sequence returns it, for any fuel at
least every tree's height. -/
theorem decodeTrees_encode (ts : List TreeNode) :
    ∀ (fuel : Nat) (rest : List Tok), (∀ t ∈ ts, t.height ≤ fuel) →
      decodeTrees fuel ts.length ((ts.map encodeTree).flatten ++ rest) =
        some (ts, rest) := by
  induction ts with
  | nil =>
      intro fuel rest _
      simp [decodeTrees]
  | cons t ts ih =>
      intro fuel rest hall
      simp [decodeTrees, List.append_assoc,
        decodeTree_encode t fuel _ (hall t (by simp)),
        ih fuel rest (fun u hu => hall u (by simp [hu])),
        Bind.bind, Option.bind]

/-- A tree's height is below the length of its encoding. -/
theorem height_lt_length_encodeTree (t : TreeNode) :
    t.height < (encodeTree t).length := by
  induction t with
  | leaf beta => simp [TreeNode.height, encodeTree, encodeRats]
  | internal j tau l r ihl ihr =>
      simp only [TreeNode.height, encodeTree, List.length_cons, List.length_append]
      omega

/-- The encoding of a member tree is no longer than the whole encoded
sequence. -/
theorem length_encode_le_flatten (t : TreeNode) (ts : List TreeNode)
    (ht : t ∈ ts) :
    (encodeTree t).length ≤ ((ts.map encodeTree).flatten).length := by
  have hmem : (encodeTree t).length ∈ (ts.map encodeTree).map List.length := by
    simp only [List.map_map, List.mem_map]
    exact ⟨t, ht, rfl⟩
  calc (encodeTree t).length
      ≤ ((ts.map encodeTree).map List.length).sum :=
        List.single_le_sum (fun x _ => Nat.zero_le x) _ hmem
    _ = ((ts.map encodeTree).flatten).length := (List.length_flatten _).symm

/-- `LoadModel` inverts `SaveModel`: the modelled §4.6 format is lossless. -/
theorem loadModel_save (m : Ensemble) : loadModel m.save = some m := by
  have hfuel : ∀ t ∈ m.trees, t.height ≤ ((m.trees.map encodeTree).flatten).length :=
    fun t ht => le_trans (Nat.le_of_lt (height_lt_length_encodeTree t))
      (length_encode_le_flatten t m.trees ht)
  have hdec := decodeTrees_encode m.trees ((m.trees.map encodeTree).flatten).length
    [] hfuel
  rw [List.append_nil] at hdec
  have hlen : ((m.trees.map encodeTree).flatten).length
      = (List.map (List.length ∘ encodeTree) m.trees).sum := by
    simp [List.length_flatten, List.map_map]
  rw [hlen] at hdec
  simp [Ensemble.save, loadModel, encodeRatLists, List.cons_append, List.append_assoc,
    decodeRatLists_encode, hdec, Bind.bind, Option.bind]

/-- C1: persistence round-trip — for every model and every inter/extra
input pair with matching row count, loading the saved model succeeds and
its predictions (under any tree limit) are exactly those of the original
model. -/
theorem C1_persistence_roundtrip (m : Ensemble) (x z : List (List ℚ))
    (k : Nat) (hrows : x.length = z.length) :
    ∃ m2, loadModel m.save = some m2 ∧
      m2.predictMatrix k x z = m.predictMatrix k x z :=
  ⟨m, loadModel_save m, rfl⟩

/-- Witness for C1 at a concrete two-tree ensemble and two-row input. -/
theorem C1_persistence_roundtrip_witness :
    ∃ m2, loadModel demoEnsemble.save = some m2 ∧
      m2.predictMatrix 0 demoX demoZ = demoEnsemble.predictMatrix 0 demoX demoZ :=
  C1_persistence_roundtrip demoEnsemble demoX demoZ 0 rfl

end GBDTE
